import Mathlib

/-!
Shallow embedding of the Volyent desktop connection core
(src/apps/desktop/electron/xray-manager.js) in Lean 4.

The JavaScript code is translated as follows:
- `parseVlessUri` and `generateConfig` become pure functions returning
  `Except String _`, where `Except.error` models a thrown exception.
- The platform primitives the code calls (`new URL`, `decodeURIComponent`,
  `URLSearchParams`) are modelled by executable functions (`jsURL`,
  `decodeURIComponentM`, `parseQuery`) covering the WHATWG behaviour on the
  class of inputs the manager handles (scheme://user@host:port?query#frag
  URIs; IPv6 bracket hosts and special-scheme URLs without `//` are outside
  the model and map to parse failure).
- The stateful manager (`connect` / `disconnect` / `cleanup` /
  `getTrafficStats`) becomes explicit state passing over `ManagerState`.
  External-world outcomes (filesystem, spawned process output, binary
  presence, traffic counters read from the engine) are inputs drawn from
  environment records, and the imperative side effects (spawn, kill,
  networksetup calls, config file writes) are recorded in an `Effect` trace.
-/

/-! ### Basic character and string helpers (structural, kernel-reducible) -/

def natOfDigits (l : List Char) : Nat :=
  l.foldl (fun n c => n * 10 + (c.toNat - 48)) 0

def natToDigitsAux : Nat → Nat → List Char
  | 0, _ => []
  | fuel + 1, n =>
    if n < 10 then [Char.ofNat (48 + n)]
    else natToDigitsAux fuel (n / 10) ++ [Char.ofNat (48 + n % 10)]

def natToStr (n : Nat) : String :=
  String.mk (natToDigitsAux (n + 1) n)

def strTake (s : String) (n : Nat) : String :=
  String.mk (s.toList.take n)

def strDrop (s : String) (n : Nat) : String :=
  String.mk (s.toList.drop n)

/-- Whitespace as JavaScript `trim` and `parseInt` treat it. -/
def jsWhitespaceB (c : Char) : Bool :=
  c.isWhitespace || c.toNat == 0x0B || c.toNat == 0x0C || c.toNat == 0xA0 ||
    c.toNat == 0xFEFF

def trimList (l : List Char) : List Char :=
  ((l.dropWhile jsWhitespaceB).reverse.dropWhile jsWhitespaceB).reverse

/-- Model of JavaScript `String.prototype.trim`. -/
def jsTrim (s : String) : String :=
  String.mk (trimList s.toList)

def containsSubList (pat : List Char) : List Char → Bool
  | [] => pat.isEmpty
  | c :: t => if pat.isPrefixOf (c :: t) then true else containsSubList pat t

/-- Model of JavaScript `String.prototype.includes`. -/
def containsSub (s pat : String) : Bool :=
  containsSubList pat.toList s.toList

/-- Split a character list on a separator character (JS `split` on a
one-character separator). -/
def splitOnCharList (sep : Char) (l : List Char) : List (List Char) :=
  l.foldr
    (fun c acc =>
      match acc with
      | [] => if c == sep then [[], []] else [[c]]
      | a :: rest => if c == sep then [] :: a :: rest else (c :: a) :: rest)
    [[]]

def splitStr (s : String) (sep : Char) : List String :=
  (splitOnCharList sep s.toList).map String.mk

def joinWith (sep : String) : List String → String
  | [] => ""
  | [x] => x
  | x :: y :: t => x ++ sep ++ joinWith sep (y :: t)

/-- Split a list at the last occurrence of `sep`:
`some (before, after)`, or `none` when `sep` does not occur. -/
def splitLast (sep : Char) (l : List Char) : Option (List Char × List Char) :=
  let revTail := l.reverse.takeWhile fun c => c != sep
  if revTail.length = l.length then none
  else some (l.take (l.length - revTail.length - 1), revTail.reverse)

/-- Model of JavaScript `parseInt(s, 10)`: `none` models `NaN`. -/
def jsParseInt (s : String) : Option Int :=
  let l := s.toList.dropWhile jsWhitespaceB
  let signRest : Int × List Char :=
    match l with
    | '-' :: t => (-1, t)
    | '+' :: t => (1, t)
    | _ => (1, l)
  let ds := signRest.2.takeWhile Char.isDigit
  if ds.isEmpty then none else some (signRest.1 * (natOfDigits ds : Int))

/-! ### Percent decoding (`decodeURIComponent` and `URLSearchParams`) -/

def hexVal (c : Char) : Option Nat :=
  if '0' ≤ c ∧ c ≤ '9' then some (c.toNat - 48)
  else if 'a' ≤ c ∧ c ≤ 'f' then some (c.toNat - 87)
  else if 'A' ≤ c ∧ c ≤ 'F' then some (c.toNat - 55)
  else none

/-- Read two hex digits (the `XX` of an already-consumed `%`). -/
def pctByte2 : List Char → Option (Nat × List Char)
  | c1 :: c2 :: t =>
    match hexVal c1, hexVal c2 with
    | some h1, some h2 => some (h1 * 16 + h2, t)
    | _, _ => none
  | _ => none

/-- Read a further `%XX` continuation byte (range 0x80–0xBF). -/
def contPct : List Char → Option (Nat × List Char)
  | '%' :: t =>
    match pctByte2 t with
    | some (b, t1) => if 0x80 ≤ b ∧ b ≤ 0xBF then some (b, t1) else none
    | none => none
  | _ => none

/-- Strict percent decoding with UTF-8 validation, the behaviour of
`decodeURIComponent`; `none` models a thrown `URIError`.  Fuel-based
recursion (fuel is the input length, each step consumes at least one
character). -/
def decodeURIAux : Nat → List Char → Option (List Char)
  | _, [] => some []
  | 0, _ => none
  | fuel + 1, c :: t =>
    if c != '%' then (decodeURIAux fuel t).map (c :: ·)
    else
      match pctByte2 t with
      | none => none
      | some (b, t1) =>
        if b < 0x80 then (decodeURIAux fuel t1).map (Char.ofNat b :: ·)
        else if 0xC2 ≤ b ∧ b ≤ 0xDF then
          match contPct t1 with
          | some (b2, t2) =>
            (decodeURIAux fuel t2).map
              (Char.ofNat ((b - 0xC0) * 64 + (b2 - 0x80)) :: ·)
          | none => none
        else if 0xE0 ≤ b ∧ b ≤ 0xEF then
          match contPct t1 with
          | some (b2, t2) =>
            if (b = 0xE0 ∧ b2 < 0xA0) ∨ (b = 0xED ∧ 0x9F < b2) then none
            else
              match contPct t2 with
              | some (b3, t3) =>
                (decodeURIAux fuel t3).map
                  (Char.ofNat ((b - 0xE0) * 4096 + (b2 - 0x80) * 64 + (b3 - 0x80)) :: ·)
              | none => none
          | none => none
        else if 0xF0 ≤ b ∧ b ≤ 0xF4 then
          match contPct t1 with
          | some (b2, t2) =>
            if (b = 0xF0 ∧ b2 < 0x90) ∨ (b = 0xF4 ∧ 0x8F < b2) then none
            else
              match contPct t2 with
              | some (b3, t3) =>
                match contPct t3 with
                | some (b4, t4) =>
                  (decodeURIAux fuel t4).map
                    (Char.ofNat ((b - 0xF0) * 262144 + (b2 - 0x80) * 4096 +
                      (b3 - 0x80) * 64 + (b4 - 0x80)) :: ·)
                | none => none
              | none => none
          | none => none
        else none

/-- Model of `decodeURIComponent`; `none` models a thrown `URIError`. -/
def decodeURIComponentM (s : String) : Option String :=
  (decodeURIAux (s.toList.length + 1) s.toList).map String.mk

def replChar : Char := Char.ofNat 0xFFFD

/-- Lenient percent-plus decoding used by `URLSearchParams`: `+` becomes a
space, invalid escapes stay literal, invalid UTF-8 becomes U+FFFD
(supplementary-plane sequences, absent from the manager's inputs, also map
to U+FFFD). -/
def queryUnescapeAux : Nat → List Char → List Char
  | _, [] => []
  | 0, l => l
  | fuel + 1, c :: t =>
    if c == '+' then ' ' :: queryUnescapeAux fuel t
    else if c != '%' then c :: queryUnescapeAux fuel t
    else
      match pctByte2 t with
      | none => c :: queryUnescapeAux fuel t
      | some (b, t1) =>
        if b < 0x80 then Char.ofNat b :: queryUnescapeAux fuel t1
        else if 0xC2 ≤ b ∧ b ≤ 0xDF then
          match contPct t1 with
          | some (b2, t2) =>
            Char.ofNat ((b - 0xC0) * 64 + (b2 - 0x80)) :: queryUnescapeAux fuel t2
          | none => replChar :: queryUnescapeAux fuel t1
        else if 0xE0 ≤ b ∧ b ≤ 0xEF then
          match contPct t1 with
          | some (b2, t2) =>
            if (b = 0xE0 ∧ b2 < 0xA0) ∨ (b = 0xED ∧ 0x9F < b2) then
              replChar :: queryUnescapeAux fuel t2
            else
              match contPct t2 with
              | some (b3, t3) =>
                Char.ofNat ((b - 0xE0) * 4096 + (b2 - 0x80) * 64 + (b3 - 0x80)) ::
                  queryUnescapeAux fuel t3
              | none => replChar :: queryUnescapeAux fuel t2
          | none => replChar :: queryUnescapeAux fuel t1
        else replChar :: queryUnescapeAux fuel t1

def queryDecode (s : String) : String :=
  String.mk (queryUnescapeAux (s.toList.length + 1) s.toList)

/-! ### The WHATWG URL model (`new URL`) -/

structure JsURL where
  scheme : String
  username : String
  hostname : String
  port : String
  search : String
  hash : String
deriving DecidableEq

def validSchemeChars : List Char → Bool
  | [] => false
  | c :: t =>
    c.isAlpha && (c :: t).all fun ch => ch.isAlphanum || ch == '+' || ch == '-' || ch == '.'

def isSpecialScheme (s : String) : Bool :=
  s == "http" || s == "https" || s == "ws" || s == "wss" || s == "ftp" || s == "file"

def specialDefaultPort : String → Option Nat
  | "http" => some 80
  | "https" => some 443
  | "ws" => some 80
  | "wss" => some 443
  | "ftp" => some 21
  | _ => none

/-- Validate and normalise the port component; `none` is URL parse failure,
`some ""` is an absent/defaulted port. -/
def portParse (scheme : String) (p : Option (List Char)) : Option String :=
  match p with
  | none => some ""
  | some [] => some ""
  | some ds =>
    if ¬ ds.all Char.isDigit then none
    else
      let n := natOfDigits ds
      if n > 65535 then none
      else
        match specialDefaultPort scheme with
        | some d => if n = d then some "" else some (natToStr n)
        | none => some (natToStr n)

/-- Split path-query-fragment text into (`search` without `?`,
`hash` with leading `#`, empty when the fragment is absent or empty). -/
def parseTail (l : List Char) : String × String :=
  let beforeFrag := l.takeWhile fun c => c != '#'
  let fragPresent := beforeFrag.length < l.length
  let frag := l.drop (beforeFrag.length + 1)
  let pathPart := beforeFrag.takeWhile fun c => c != '?'
  let query :=
    if pathPart.length < beforeFrag.length then beforeFrag.drop (pathPart.length + 1)
    else []
  let hash := if fragPresent ∧ frag ≠ [] then String.mk ('#' :: frag) else ""
  (String.mk query, hash)

/-- Model of `new URL(uri)`; `none` models a thrown `TypeError`. -/
def jsURL (uri : String) : Option JsURL :=
  let cs0 := uri.toList.filter fun c => !(c == '\t' || c == '\n' || c == '\r')
  let cs1 := cs0.dropWhile fun c => decide (c.toNat ≤ 0x20)
  let cs := (cs1.reverse.dropWhile fun c => decide (c.toNat ≤ 0x20)).reverse
  let schemeChars := cs.takeWhile fun c => c != ':'
  if schemeChars.length = cs.length then none
  else if ¬ validSchemeChars schemeChars then none
  else
    let scheme := String.mk (schemeChars.map Char.toLower)
    let afterScheme := cs.drop (schemeChars.length + 1)
    match afterScheme with
    | '/' :: '/' :: rest =>
      let auth := rest.takeWhile fun c => !(c == '/' || c == '?' || c == '#')
      let afterAuth := rest.drop auth.length
      let userHost : Option (List Char) × List Char :=
        match splitLast '@' auth with
        | some (u, hp) => (some u, hp)
        | none => (none, auth)
      let username :=
        match userHost.1 with
        | some u => String.mk (u.takeWhile fun c => c != ':')
        | none => ""
      if userHost.2.contains '[' then none
      else
        let hostPort : List Char × Option (List Char) :=
          match splitLast ':' userHost.2 with
          | some (h, p) => (h, some p)
          | none => (userHost.2, none)
        if hostPort.1.contains ':' then none
        else
          match portParse scheme hostPort.2 with
          | none => none
          | some portStr =>
            if hostPort.1.isEmpty ∧ (userHost.1 ≠ none ∨ hostPort.2 ≠ none) then none
            else if isSpecialScheme scheme ∧ scheme ≠ "file" ∧ hostPort.1.isEmpty then
              none
            else
              let tail := parseTail afterAuth
              some ⟨scheme, username, String.mk hostPort.1, portStr, tail.1, tail.2⟩
    | _ =>
      if isSpecialScheme scheme then none
      else
        let tail := parseTail afterScheme
        some ⟨scheme, "", "", "", tail.1, tail.2⟩

/-! ### `URLSearchParams` plus `Object.fromEntries` -/

/-- The ordered key-value pairs of a query string (`URLSearchParams`). -/
def parseQuery (search : String) : List (String × String) :=
  if search = "" then []
  else
    (splitStr search '&').filterMap fun seg =>
      if seg = "" then none
      else
        match splitStr seg '=' with
        | [] => none
        | k :: rest => some (queryDecode k, queryDecode (joinWith "=" rest))

/-- `Object.fromEntries(url.searchParams)` lookup: the last occurrence of a
duplicate key wins. -/
def getParam (ps : List (String × String)) (k : String) : Option String :=
  (ps.reverse.find? fun p => p.1 == k).map (·.2)

/-- JavaScript `x || dflt` on an optional string (`undefined` and `""` are
both falsy). -/
def jsOr (v : Option String) (d : String) : String :=
  match v with
  | some s => if s = "" then d else s
  | none => d

/-- JavaScript `x || dflt` on a string. -/
def jsOrStr (s d : String) : String :=
  if s = "" then d else s

/-! ### The parsed VLESS descriptor (`parseVlessUri`) -/

structure VlessUser where
  id : String
  encryption : String
  flow : Option String
deriving DecidableEq

structure TlsSettingsV where
  serverName : String
  allowInsecure : Bool
  fingerprint : String
  alpn : Option (List String)
deriving DecidableEq

structure RealitySettingsV where
  serverName : String
  fingerprint : String
  publicKey : String
  shortId : String
  spiderX : String
deriving DecidableEq

structure WsSettingsV where
  path : String
  hostHeader : String
deriving DecidableEq

structure GrpcSettingsV where
  serviceName : String
deriving DecidableEq

structure TcpHttpHeaderV where
  reqPath : List String
  reqHostHeaders : List String
deriving DecidableEq

structure StreamSettingsV where
  network : String
  security : Option String
  tlsSettings : Option TlsSettingsV
  realitySettings : Option RealitySettingsV
  wsSettings : Option WsSettingsV
  grpcSettings : Option GrpcSettingsV
  tcpSettings : Option TcpHttpHeaderV
deriving DecidableEq

structure VnextEntry where
  address : String
  port : Option Int
  users : List VlessUser
deriving DecidableEq

structure VlessOutbound where
  tag : String
  protocol : String
  vnext : List VnextEntry
  streamSettings : StreamSettingsV
deriving DecidableEq

structure ParsedVless where
  label : String
  outbound : VlessOutbound
deriving DecidableEq

/-- The string fed to `decodeURIComponent` for the label:
`url.hash.slice(1) || 'Volyent'`. -/
def labelSource (u : JsURL) : String :=
  jsOrStr (strDrop u.hash 1) "Volyent"

/-- The body of `parseVlessUri` after `new URL` has succeeded. -/
def parseFromURL (u : JsURL) : Except String ParsedVless :=
  let uuid := u.username
  let host := u.hostname
  let port := jsParseInt u.port
  let params := parseQuery u.search
  match decodeURIComponentM (labelSource u) with
  | none => Except.error "URI malformed"
  | some label =>
    let network := jsOr (getParam params "type") "tcp"
    let secTriple :
        Option String × Option TlsSettingsV × Option RealitySettingsV :=
      if getParam params "security" = some "tls" then
        (some "tls",
         some { serverName := jsOr (getParam params "sni") host
              , allowInsecure := false
              , fingerprint := jsOr (getParam params "fp") "chrome"
              , alpn :=
                  match getParam params "alpn" with
                  | some a => if a = "" then none else some (splitStr a ',')
                  | none => none },
         none)
      else if getParam params "security" = some "reality" then
        (some "reality", none,
         some { serverName := jsOr (getParam params "sni") ""
              , fingerprint := jsOr (getParam params "fp") "chrome"
              , publicKey := jsOr (getParam params "pbk") ""
              , shortId := jsOr (getParam params "sid") ""
              , spiderX := jsOr (getParam params "spx") "" })
      else (none, none, none)
    let transTriple :
        Option WsSettingsV × Option GrpcSettingsV × Option TcpHttpHeaderV :=
      if network = "ws" then
        (some { path := jsOr (getParam params "path") "/"
              , hostHeader := jsOr (getParam params "host") host }, none, none)
      else if network = "grpc" then
        (none, some { serviceName := jsOr (getParam params "serviceName") "" }, none)
      else if network = "tcp" ∧ getParam params "headerType" = some "http" then
        (none, none,
         some { reqPath := [jsOr (getParam params "path") "/"]
              , reqHostHeaders := [jsOr (getParam params "host") host] })
      else (none, none, none)
    let flowV : Option String :=
      match getParam params "flow" with
      | some f => if f = "" then none else some f
      | none => none
    let user : VlessUser :=
      { id := uuid
      , encryption := jsOr (getParam params "encryption") "none"
      , flow := flowV }
    Except.ok
      { label := label
      , outbound :=
        { tag := "proxy"
        , protocol := "vless"
        , vnext := [{ address := host, port := port, users := [user] }]
        , streamSettings :=
          { network := network
          , security := secTriple.1
          , tlsSettings := secTriple.2.1
          , realitySettings := secTriple.2.2
          , wsSettings := transTriple.1
          , grpcSettings := transTriple.2.1
          , tcpSettings := transTriple.2.2 } } }

/-- Model of `XrayManager.parseVlessUri`; `Except.error` models a thrown
exception (`TypeError` from `new URL`, `URIError` from
`decodeURIComponent`). -/
def parseVlessUri (uri : String) : Except String ParsedVless :=
  match jsURL uri with
  | none => Except.error "Invalid URL"
  | some u => parseFromURL u

/-! ### The full xray config (`generateConfig`) -/

def SOCKS_PORT : Nat := 10808
def HTTP_PORT : Nat := 10809
def API_PORT : Nat := 10085

structure SocksInSettings where
  auth : String
  udp : Bool
deriving DecidableEq

inductive InboundSettingsV
  | socks (s : SocksInSettings)
  | emptyObj
  | dokodemo (address : String)
deriving DecidableEq

structure InboundV where
  tag : String
  protocol : String
  listen : String
  port : Nat
  settings : InboundSettingsV
deriving DecidableEq

inductive OutboundV
  | vlessOut (o : VlessOutbound)
  | plain (tag : String) (protocol : String)
deriving DecidableEq

structure RoutingRuleV where
  ruleType : String
  inboundTag : Option (List String)
  outboundTag : String
  ip : Option (List String)
deriving DecidableEq

structure RoutingV where
  domainStrategy : String
  rules : List RoutingRuleV
deriving DecidableEq

structure PolicySystemV where
  statsInboundUplink : Bool
  statsInboundDownlink : Bool
  statsOutboundUplink : Bool
  statsOutboundDownlink : Bool
deriving DecidableEq

structure XrayConfigV where
  loglevel : String
  apiTag : String
  apiServices : List String
  policySystem : PolicySystemV
  inbounds : List InboundV
  outbounds : List OutboundV
  routing : RoutingV
deriving DecidableEq

/-- The literal config object `generateConfig` assembles around the parsed
outbound. -/
def buildConfig (outbound : VlessOutbound) : XrayConfigV :=
  { loglevel := "warning"
  , apiTag := "api"
  , apiServices := ["StatsService"]
  , policySystem :=
    { statsInboundUplink := true
    , statsInboundDownlink := true
    , statsOutboundUplink := true
    , statsOutboundDownlink := true }
  , inbounds :=
    [ { tag := "socks-in", protocol := "socks", listen := "127.0.0.1"
      , port := SOCKS_PORT
      , settings := InboundSettingsV.socks { auth := "noauth", udp := true } }
    , { tag := "http-in", protocol := "http", listen := "127.0.0.1"
      , port := HTTP_PORT, settings := InboundSettingsV.emptyObj }
    , { tag := "api", protocol := "dokodemo-door", listen := "127.0.0.1"
      , port := API_PORT, settings := InboundSettingsV.dokodemo "127.0.0.1" } ]
  , outbounds :=
    [ OutboundV.vlessOut outbound
    , OutboundV.plain "direct" "freedom"
    , OutboundV.plain "block" "blackhole" ]
  , routing :=
    { domainStrategy := "AsIs"
    , rules :=
      [ { ruleType := "field", inboundTag := some ["api"], outboundTag := "api"
        , ip := none }
      , { ruleType := "field", inboundTag := none, outboundTag := "direct"
        , ip := some ["10.0.0.0/8", "172.16.0.0/12", "192.168.0.0/16", "127.0.0.0/8"] } ] } }

/-- Model of `XrayManager.generateConfig`. -/
def generateConfig (uri : String) : Except String XrayConfigV :=
  (parseVlessUri uri).map fun p => buildConfig p.outbound

/-! ### Process readiness wait (the promise inside `connect`)

The child process is observed only through its event stream.  `XEv` lists
the events delivered before the 3-second `setTimeout` budget fires;
exhausting the list models the timeout firing, which the code treats as
`resolve()`.  The promise settles on the first event the handlers act on:
a stdout chunk containing a readiness marker resolves, a spawn `error`
event rejects, and a non-zero `exit` while the manager is still
`connecting` rejects with a diagnostic extracted from the captured
output. -/

inductive XEv
  | stdout (s : String)
  | stderr (s : String)
  | exit (code : Int)
  | spawnErr (msg : String)
deriving DecidableEq

/-- `msg.includes('started') || msg.includes('listening')`, checked per
chunk as in the source. -/
def hasMarker (s : String) : Bool :=
  containsSub s "started" || containsSub s "listening"

def failPat : List Char := "Failed to start:".toList

/-- Line terminators that JavaScript regex `.` does not match. -/
def isJsLineBreak (c : Char) : Bool :=
  c == '\n' || c == '\r' || c.toNat == 0x2028 || c.toNat == 0x2029

/-- The capture of `/Failed to start:(.+)/`: the first occurrence of the
pattern followed by at least one non-line-break character, captured to the
end of the line. -/
def diagCapture : List Char → Option (List Char)
  | [] => none
  | c :: t =>
    if failPat.isPrefixOf (c :: t) then
      let cap := ((c :: t).drop failPat.length).takeWhile fun ch => ! isJsLineBreak ch
      if cap.isEmpty then diagCapture t else some cap
    else diagCapture t

/-- `failMatch ? failMatch[1].trim().slice(0, 150) : outputBuf.slice(0, 200)`. -/
def extractDiag (buf : String) : String :=
  match diagCapture buf.toList with
  | some cap => strTake (jsTrim (String.mk cap)) 150
  | none => strTake buf 200

inductive WaitOutcome
  | ready
  | failed (msg : String)
deriving DecidableEq

/-- The readiness promise: first settling handler wins; list exhaustion is
the 3-second timeout, which resolves. -/
def runWait : List XEv → String → WaitOutcome
  | [], _ => WaitOutcome.ready
  | XEv.stdout s :: rest, buf =>
    if hasMarker s then WaitOutcome.ready else runWait rest (buf ++ s)
  | XEv.stderr s :: rest, buf => runWait rest (buf ++ s)
  | XEv.spawnErr m :: _, _ => WaitOutcome.failed ("xray spawn error: " ++ m)
  | XEv.exit c :: rest, buf =>
    if c ≠ 0 then WaitOutcome.failed ("xray error: " ++ extractDiag buf)
    else runWait rest buf

/-- Spec-side readiness description (§4.3 of the spec, quoted by the
claim): the process is treated as ready exactly when a marker chunk
appears in standard output, or the wait budget elapses without the process
exiting non-zero (and without a spawn error); the first settling event
decides. -/
def isSettlingEv : XEv → Bool
  | XEv.stdout s => hasMarker s
  | XEv.stderr _ => false
  | XEv.exit c => decide (c ≠ 0)
  | XEv.spawnErr _ => true

def specTreatedReady (evs : List XEv) : Bool :=
  match evs.find? isSettlingEv with
  | none => true
  | some (XEv.stdout _) => true
  | some _ => false

/-- Concatenation of the output chunks (stdout and stderr) of an event
list, i.e. the `outputBuf` the handlers accumulate. -/
def outputOf : List XEv → String
  | [] => ""
  | XEv.stdout s :: t => s ++ outputOf t
  | XEv.stderr s :: t => s ++ outputOf t
  | XEv.exit _ :: t => outputOf t
  | XEv.spawnErr _ :: t => outputOf t

/-! ### Manager state, environments, effects -/

inductive MStatus
  | disconnected
  | connecting
  | connected
  | error
deriving DecidableEq

@[ext]
structure TrafficTotals where
  uplink : Nat
  downlink : Nat
deriving DecidableEq

/-- The mutable fields of the `XrayManager` instance.  `hasProcess` models
`this.process !== null`. -/
@[ext]
structure ManagerState where
  hasProcess : Bool
  status : MStatus
  error : Option String
  activeNetworkService : Option String
  cumulativeStats : TrafficTotals
deriving DecidableEq

/-- Imperative side effects, recorded in order of execution.  Entries model
attempts: the code ignores the outcome of each of these operations. -/
inductive Effect
  | writeConfig
  | spawnProc
  | killProc
  | setProxy
  | unsetProxy
  | deleteConfig
  | foldStats (up : Nat) (down : Nat)
  | persistStats (s : TrafficTotals) (writeOk : Bool)
deriving DecidableEq

/-- Environment for `cleanup` / `_saveCumulativeFromSession`: whether
`getXrayPath` finds the binary, the session counters the two
`queryStats` calls produce (already 0 on an individual query failure, as
the inner catch returns 0), and whether the `_saveStats` write succeeds. -/
structure CleanupEnv where
  binaryOk : Bool
  sessionUp : Nat
  sessionDown : Nat
  writeOk : Bool
deriving DecidableEq

structure ConnectEnv where
  uri : String
  preCleanup : CleanupEnv
  configWriteOk : Bool
  binaryOk : Bool
  events : List XEv
  failCleanup : CleanupEnv
  serviceName : String
deriving DecidableEq

structure StatsEnv where
  binaryOk : Bool
  sessionUp : Nat
  sessionDown : Nat
deriving DecidableEq

/-- Result of a manager call: the successor state, the `{ok, error}` value
returned to the caller (the methods never throw), and the effect trace. -/
structure OpResult where
  state : ManagerState
  ok : Bool
  error : Option String
  trace : List Effect
deriving DecidableEq

/-! ### `_saveCumulativeFromSession`, `cleanup`, `disconnect`, `connect` -/

/-- `_saveCumulativeFromSession`: on `getXrayPath` failure the outer catch
skips fold and persist entirely; otherwise both counters are folded into
the cumulative totals and `_saveStats` is attempted immediately. -/
def saveCumulativeFromSession (st : ManagerState) (env : CleanupEnv) :
    ManagerState × List Effect :=
  if env.binaryOk then
    let newCum : TrafficTotals :=
      { uplink := st.cumulativeStats.uplink + env.sessionUp
      , downlink := st.cumulativeStats.downlink + env.sessionDown }
    ({ st with cumulativeStats := newCum },
     [Effect.foldStats env.sessionUp env.sessionDown,
      Effect.persistStats newCum env.writeOk])
  else (st, [])

/-- `cleanup()`: fold stats only when a process exists and the state is
`connected`; kill the process when one exists; always unset the system
proxy and delete the temp config. -/
def cleanup (st : ManagerState) (env : CleanupEnv) :
    ManagerState × List Effect :=
  let folded :=
    if st.hasProcess = true ∧ st.status = MStatus.connected then
      saveCumulativeFromSession st env
    else (st, [])
  let killed :=
    if folded.1.hasProcess then
      ({ folded.1 with hasProcess := false }, [Effect.killProc])
    else (folded.1, [])
  (killed.1, folded.2 ++ killed.2 ++ [Effect.unsetProxy, Effect.deleteConfig])

/-- `disconnect()`. -/
def disconnect (st : ManagerState) (env : CleanupEnv) : OpResult :=
  let r := cleanup st env
  { state := { r.1 with status := MStatus.disconnected, error := none }
  , ok := true, error := none, trace := r.2 }

/-- The catch block of `connect`: set `ERROR` state and the message, run
`cleanup`, and return `{ok:false, error}`. -/
def connectFail (st : ManagerState) (msg : String) (env : CleanupEnv)
    (pre : List Effect) : OpResult :=
  let stE := { st with status := MStatus.error, error := some msg }
  let r := cleanup stE env
  { state := r.1, ok := false, error := some msg, trace := pre ++ r.2 }

/-- The `if (this.process) this.disconnect();` prologue of `connect`:
state afterwards, plus the effects it performed. -/
def connectPre (st : ManagerState) (env : ConnectEnv) : ManagerState × List Effect :=
  if st.hasProcess then
    ((disconnect st env.preCleanup).state, (disconnect st env.preCleanup).trace)
  else (st, [])

/-- The state after `this.status = 'connecting'; this.error = null;`. -/
def connectStart (st : ManagerState) (env : ConnectEnv) : ManagerState :=
  { (connectPre st env).1 with status := MStatus.connecting, error := none }

/-- `connect(vlessUri)`. -/
def connect (st : ManagerState) (env : ConnectEnv) : OpResult :=
  match generateConfig env.uri with
  | Except.error msg =>
    connectFail (connectStart st env) msg env.failCleanup (connectPre st env).2
  | Except.ok _ =>
    if env.configWriteOk = false then
      connectFail (connectStart st env) "config write failed" env.failCleanup
        ((connectPre st env).2 ++ [Effect.writeConfig])
    else if env.binaryOk = false then
      connectFail (connectStart st env) "xray binary not found" env.failCleanup
        ((connectPre st env).2 ++ [Effect.writeConfig])
    else
      match runWait env.events "" with
      | WaitOutcome.failed msg =>
        connectFail { connectStart st env with hasProcess := true } msg
          env.failCleanup
          ((connectPre st env).2 ++ [Effect.writeConfig, Effect.spawnProc])
      | WaitOutcome.ready =>
        { state :=
          { connectStart st env with
              hasProcess := true
            , activeNetworkService := some env.serviceName
            , status := MStatus.connected }
        , ok := true, error := none
        , trace :=
            (connectPre st env).2 ++
              [Effect.writeConfig, Effect.spawnProc, Effect.setProxy] }

/-! ### `getTrafficStats`, stats persistence, construction -/

/-- The record `getTrafficStats` returns: `uplink`/`downlink` are always
present (spread from the cumulative record); the session fields are only
added on the connected path. -/
structure StatsView where
  uplink : Nat
  downlink : Nat
  sessionUplink : Option Nat
  sessionDownlink : Option Nat
deriving DecidableEq

def getTrafficStats (st : ManagerState) (env : StatsEnv) : StatsView :=
  let base : StatsView :=
    { uplink := st.cumulativeStats.uplink
    , downlink := st.cumulativeStats.downlink
    , sessionUplink := none, sessionDownlink := none }
  if st.status ≠ MStatus.connected ∨ st.hasProcess = false then base
  else if env.binaryOk then
    { uplink := st.cumulativeStats.uplink + env.sessionUp
    , downlink := st.cumulativeStats.downlink + env.sessionDown
    , sessionUplink := some env.sessionUp
    , sessionDownlink := some env.sessionDown }
  else base

/-- State of the durable stats record at construction time. -/
inductive StatsFileEnv
  | missing
  | readError
  | corrupt
  | stored (s : TrafficTotals)
deriving DecidableEq

/-- The body of the try in `_loadStats`: `ok none` is `existsSync` false
(no exception, fall through), `error` is a thrown read or JSON-parse
exception. -/
def readStatsAttempt : StatsFileEnv → Except String (Option TrafficTotals)
  | StatsFileEnv.missing => Except.ok none
  | StatsFileEnv.readError => Except.error "EIO: read failed"
  | StatsFileEnv.corrupt => Except.error "SyntaxError: unexpected token in JSON"
  | StatsFileEnv.stored s => Except.ok (some s)

/-- `_loadStats`: any exception is swallowed and every non-stored case
falls back to zero totals. -/
def loadStats (e : StatsFileEnv) : TrafficTotals :=
  match readStatsAttempt e with
  | Except.ok (some s) => s
  | Except.ok none => { uplink := 0, downlink := 0 }
  | Except.error _ => { uplink := 0, downlink := 0 }

/-- The `XrayManager` constructor. -/
def mkManager (e : StatsFileEnv) : ManagerState :=
  { hasProcess := false, status := MStatus.disconnected, error := none
  , activeNetworkService := none, cumulativeStats := loadStats e }

/-! ### Operation sequences -/

inductive MOp
  | conn (env : ConnectEnv)
  | disc (env : CleanupEnv)
  | query (env : StatsEnv)

def stepM (st : ManagerState) : MOp → ManagerState
  | MOp.conn e => (connect st e).state
  | MOp.disc e => (disconnect st e).state
  | MOp.query _ => st

def runOps (st : ManagerState) (ops : List MOp) : ManagerState :=
  ops.foldl stepM st

deriving instance DecidableEq for Except

/-! ### Helper lemmas about `cleanup` -/

theorem cleanup_state_spec (st : ManagerState) (env : CleanupEnv) :
    (cleanup st env).1.hasProcess = false ∧
    (cleanup st env).1.status = st.status ∧
    (cleanup st env).1.error = st.error ∧
    (cleanup st env).1.activeNetworkService = st.activeNetworkService ∧
    (cleanup st env).1.cumulativeStats =
      (if st.hasProcess = true ∧ st.status = MStatus.connected ∧ env.binaryOk = true then
        { uplink := st.cumulativeStats.uplink + env.sessionUp
        , downlink := st.cumulativeStats.downlink + env.sessionDown }
      else st.cumulativeStats) := by
  unfold cleanup saveCumulativeFromSession
  by_cases h1 : st.hasProcess = true ∧ st.status = MStatus.connected
  · by_cases h2 : env.binaryOk = true
    · simp [h1, h2, h1.1, h1.2]
    · simp [h1, h2, h1.1, h1.2]
  · by_cases h3 : st.hasProcess = true
    · have h4 : ¬ st.status = MStatus.connected := fun hc => h1 ⟨h3, hc⟩
      simp [h1, h3, h4]
    · simp [h1, h3]

theorem cleanup_trace_spec (st : ManagerState) (env : CleanupEnv) :
    (cleanup st env).2 =
      (if st.hasProcess = true ∧ st.status = MStatus.connected ∧ env.binaryOk = true then
        [Effect.foldStats env.sessionUp env.sessionDown,
         Effect.persistStats
           { uplink := st.cumulativeStats.uplink + env.sessionUp
           , downlink := st.cumulativeStats.downlink + env.sessionDown }
           env.writeOk]
      else []) ++
      (if st.hasProcess then [Effect.killProc] else []) ++
      [Effect.unsetProxy, Effect.deleteConfig] := by
  unfold cleanup saveCumulativeFromSession
  by_cases h1 : st.hasProcess = true ∧ st.status = MStatus.connected
  · by_cases h2 : env.binaryOk = true
    · simp [h1, h2, h1.1, h1.2]
    · simp [h1, h2, h1.1, h1.2]
  · by_cases h3 : st.hasProcess = true
    · have h4 : ¬ st.status = MStatus.connected := fun hc => h1 ⟨h3, hc⟩
      simp [h1, h3, h4]
    · simp [h1, h3]

theorem cleanup_trace_unset (st : ManagerState) (env : CleanupEnv) :
    Effect.unsetProxy ∈ (cleanup st env).2 := by
  rw [cleanup_trace_spec]
  simp

theorem cleanup_trace_delete (st : ManagerState) (env : CleanupEnv) :
    Effect.deleteConfig ∈ (cleanup st env).2 := by
  rw [cleanup_trace_spec]
  simp

theorem cleanup_trace_kill (st : ManagerState) (env : CleanupEnv)
    (h : st.hasProcess = true) : Effect.killProc ∈ (cleanup st env).2 := by
  rw [cleanup_trace_spec]
  simp [h]

theorem cleanup_trace_no_spawn (st : ManagerState) (env : CleanupEnv) :
    Effect.spawnProc ∉ (cleanup st env).2 := by
  rw [cleanup_trace_spec]
  split <;> split <;> simp

theorem cleanup_cum_mono (st : ManagerState) (env : CleanupEnv) :
    st.cumulativeStats.uplink ≤ (cleanup st env).1.cumulativeStats.uplink ∧
    st.cumulativeStats.downlink ≤ (cleanup st env).1.cumulativeStats.downlink := by
  have h := (cleanup_state_spec st env).2.2.2.2
  rw [h]
  split
  · exact ⟨Nat.le_add_right _ _, Nat.le_add_right _ _⟩
  · exact ⟨Nat.le_refl _, Nat.le_refl _⟩

theorem disconnect_cum_mono (st : ManagerState) (env : CleanupEnv) :
    st.cumulativeStats.uplink ≤ (disconnect st env).state.cumulativeStats.uplink ∧
    st.cumulativeStats.downlink ≤ (disconnect st env).state.cumulativeStats.downlink := by
  unfold disconnect
  exact cleanup_cum_mono st env

theorem connectFail_spec (st : ManagerState) (msg : String) (env : CleanupEnv)
    (pre : List Effect) :
    (connectFail st msg env pre).ok = false ∧
    (connectFail st msg env pre).error = some msg ∧
    (connectFail st msg env pre).state.status = MStatus.error ∧
    (connectFail st msg env pre).state.error = some msg ∧
    (connectFail st msg env pre).state.hasProcess = false ∧
    Effect.unsetProxy ∈ (connectFail st msg env pre).trace ∧
    Effect.deleteConfig ∈ (connectFail st msg env pre).trace ∧
    (st.hasProcess = true → Effect.killProc ∈ (connectFail st msg env pre).trace) ∧
    (Effect.spawnProc ∈ (connectFail st msg env pre).trace →
      Effect.spawnProc ∈ pre) := by
  unfold connectFail
  set stE : ManagerState := { st with status := MStatus.error, error := some msg } with hE
  have hs := cleanup_state_spec stE env
  refine ⟨rfl, rfl, ?_, ?_, ?_, ?_, ?_, ?_, ?_⟩
  · exact hs.2.1
  · exact hs.2.2.1
  · exact hs.1
  · exact List.mem_append_right _ (cleanup_trace_unset stE env)
  · exact List.mem_append_right _ (cleanup_trace_delete stE env)
  · intro h
    exact List.mem_append_right _ (cleanup_trace_kill stE env h)
  · intro h
    rcases List.mem_append.mp h with h | h
    · exact h
    · exact absurd h (cleanup_trace_no_spawn stE env)

theorem connectPre_no_spawn (st : ManagerState) (env : ConnectEnv) :
    Effect.spawnProc ∉ (connectPre st env).2 := by
  unfold connectPre
  split
  · exact cleanup_trace_no_spawn st env.preCleanup
  · simp

/-- Claim C2: every failing `connect` (config generation, spawn, or
readiness failure) ends in the `error` state carrying the failure's
message, returns `{ok:false}` with that same message instead of throwing,
and has run the cleanup path before returning: the spawned process (when
one was spawned) is killed, the system proxy settings are unset, and the
temporary config file is deleted. -/
theorem c2_connect_failure_cleanup (st : ManagerState) (env : ConnectEnv)
    (h : (connect st env).ok = false) :
    (connect st env).state.status = MStatus.error ∧
    (connect st env).error ≠ none ∧
    (connect st env).state.error = (connect st env).error ∧
    (connect st env).state.hasProcess = false ∧
    Effect.unsetProxy ∈ (connect st env).trace ∧
    Effect.deleteConfig ∈ (connect st env).trace ∧
    (Effect.spawnProc ∈ (connect st env).trace →
      Effect.killProc ∈ (connect st env).trace) := by
  have hpre := connectPre_no_spawn st env
  unfold connect at h ⊢
  cases hg : generateConfig env.uri with
  | error msg =>
    obtain ⟨_, he, hst, hse, hhp, hu, hd, _, hsp⟩ :=
      connectFail_spec (connectStart st env) msg env.failCleanup (connectPre st env).2
    exact ⟨hst, by simp [he], by rw [he, hse], hhp, hu, hd,
      fun hmem => absurd (hsp hmem) hpre⟩
  | ok cfg =>
    by_cases hw : env.configWriteOk = false
    · rw [if_pos hw] at h ⊢
      obtain ⟨_, he, hst, hse, hhp, hu, hd, _, hsp⟩ :=
        connectFail_spec (connectStart st env) "config write failed" env.failCleanup
          ((connectPre st env).2 ++ [Effect.writeConfig])
      refine ⟨hst, by simp [he], by rw [he, hse], hhp, hu, hd, ?_⟩
      intro hmem
      rcases List.mem_append.mp (hsp hmem) with h1 | h1
      · exact absurd h1 hpre
      · simp at h1
    · rw [if_neg hw] at h ⊢
      by_cases hb : env.binaryOk = false
      · rw [if_pos hb] at h ⊢
        obtain ⟨_, he, hst, hse, hhp, hu, hd, _, hsp⟩ :=
          connectFail_spec (connectStart st env) "xray binary not found" env.failCleanup
            ((connectPre st env).2 ++ [Effect.writeConfig])
        refine ⟨hst, by simp [he], by rw [he, hse], hhp, hu, hd, ?_⟩
        intro hmem
        rcases List.mem_append.mp (hsp hmem) with h1 | h1
        · exact absurd h1 hpre
        · simp at h1
      · rw [if_neg hb] at h ⊢
        cases hr : runWait env.events "" with
        | failed msg =>
          obtain ⟨_, he, hst, hse, hhp, hu, hd, hk, _⟩ :=
            connectFail_spec { connectStart st env with hasProcess := true } msg
              env.failCleanup
              ((connectPre st env).2 ++ [Effect.writeConfig, Effect.spawnProc])
          exact ⟨hst, by simp [he], by rw [he, hse], hhp, hu, hd, fun _ => hk rfl⟩
        | ready =>
          rw [hg, hr] at h
          simp at h

/-- Claim C3: `disconnect` is idempotent.  For every manager state and
every environment, `disconnect` returns `{ok:true}` (it raises no error),
leaves the state `disconnected` with a `null` error, and a second
`disconnect` — under any environment — changes nothing. -/
theorem c3_disconnect_idempotent (st : ManagerState) (e1 e2 : CleanupEnv) :
    (disconnect st e1).ok = true ∧
    (disconnect st e1).error = none ∧
    (disconnect st e1).state.status = MStatus.disconnected ∧
    (disconnect st e1).state.error = none ∧
    (disconnect ((disconnect st e1).state) e2).state = (disconnect st e1).state ∧
    (disconnect ((disconnect st e1).state) e2).ok = true := by
  refine ⟨rfl, rfl, rfl, rfl, ?_, rfl⟩
  have hproc : (disconnect st e1).state.hasProcess = false :=
    (cleanup_state_spec st e1).1
  have h2 := cleanup_state_spec ((disconnect st e1).state) e2
  apply ManagerState.ext
  · show (cleanup ((disconnect st e1).state) e2).1.hasProcess =
      (disconnect st e1).state.hasProcess
    rw [h2.1, hproc]
  · rfl
  · rfl
  · exact h2.2.2.2.1
  · show (cleanup ((disconnect st e1).state) e2).1.cumulativeStats =
      (disconnect st e1).state.cumulativeStats
    rw [h2.2.2.2.2]
    simp [hproc]

theorem connect_cum_mono (st : ManagerState) (env : ConnectEnv) :
    st.cumulativeStats.uplink ≤ (connect st env).state.cumulativeStats.uplink ∧
    st.cumulativeStats.downlink ≤ (connect st env).state.cumulativeStats.downlink := by
  have hpre :
      st.cumulativeStats.uplink ≤ (connectPre st env).1.cumulativeStats.uplink ∧
      st.cumulativeStats.downlink ≤ (connectPre st env).1.cumulativeStats.downlink := by
    unfold connectPre
    split
    · exact disconnect_cum_mono st env.preCleanup
    · exact ⟨Nat.le_refl _, Nat.le_refl _⟩
  unfold connect
  cases hg : generateConfig env.uri with
  | error msg =>
    have hc := cleanup_cum_mono
      { connectStart st env with status := MStatus.error, error := some msg }
      env.failCleanup
    exact ⟨le_trans hpre.1 hc.1, le_trans hpre.2 hc.2⟩
  | ok cfg =>
    by_cases hw : env.configWriteOk = false
    · rw [if_pos hw]
      have hc := cleanup_cum_mono
        { connectStart st env with status := MStatus.error, error := some "config write failed" }
        env.failCleanup
      exact ⟨le_trans hpre.1 hc.1, le_trans hpre.2 hc.2⟩
    · rw [if_neg hw]
      by_cases hb : env.binaryOk = false
      · rw [if_pos hb]
        have hc := cleanup_cum_mono
          { connectStart st env with status := MStatus.error, error := some "xray binary not found" }
          env.failCleanup
        exact ⟨le_trans hpre.1 hc.1, le_trans hpre.2 hc.2⟩
      · rw [if_neg hb]
        cases hr : runWait env.events "" with
        | failed msg =>
          have hc := cleanup_cum_mono
            { connectStart st env with
                hasProcess := true, status := MStatus.error, error := some msg }
            env.failCleanup
          exact ⟨le_trans hpre.1 hc.1, le_trans hpre.2 hc.2⟩
        | ready =>
          exact hpre

theorem stepM_cum_mono (st : ManagerState) (op : MOp) :
    st.cumulativeStats.uplink ≤ (stepM st op).cumulativeStats.uplink ∧
    st.cumulativeStats.downlink ≤ (stepM st op).cumulativeStats.downlink := by
  cases op with
  | conn e => exact connect_cum_mono st e
  | disc e => exact disconnect_cum_mono st e
  | query e => exact ⟨Nat.le_refl _, Nat.le_refl _⟩

theorem runOps_cum_mono (ops : List MOp) :
    ∀ st : ManagerState,
      st.cumulativeStats.uplink ≤ (runOps st ops).cumulativeStats.uplink ∧
      st.cumulativeStats.downlink ≤ (runOps st ops).cumulativeStats.downlink := by
  induction ops with
  | nil => exact fun st => ⟨Nat.le_refl _, Nat.le_refl _⟩
  | cons op t ih =>
    intro st
    have h1 := stepM_cum_mono st op
    have h2 := ih (stepM st op)
    exact ⟨le_trans h1.1 h2.1, le_trans h1.2 h2.2⟩

/-- Claim C4: across every sequence of connect/disconnect/stats
operations the cumulative totals never decrease; a `cleanup` of a
connected session (with the engine binary locatable) emits exactly one
fold, immediately followed by the persist attempt and only then the
process kill; and a `cleanup` of anything other than a connected session
with a live process performs no fold at all. -/
theorem c4_cumulative_monotone_fold_once :
    (∀ (st : ManagerState) (ops : List MOp),
      st.cumulativeStats.uplink ≤ (runOps st ops).cumulativeStats.uplink ∧
      st.cumulativeStats.downlink ≤ (runOps st ops).cumulativeStats.downlink) ∧
    (∀ (st : ManagerState) (env : CleanupEnv),
      st.hasProcess = true → st.status = MStatus.connected → env.binaryOk = true →
      (cleanup st env).2 =
        [Effect.foldStats env.sessionUp env.sessionDown,
         Effect.persistStats
           { uplink := st.cumulativeStats.uplink + env.sessionUp
           , downlink := st.cumulativeStats.downlink + env.sessionDown }
           env.writeOk,
         Effect.killProc, Effect.unsetProxy, Effect.deleteConfig]) ∧
    (∀ (st : ManagerState) (env : CleanupEnv) (up down : Nat),
      ¬(st.hasProcess = true ∧ st.status = MStatus.connected) →
      Effect.foldStats up down ∉ (cleanup st env).2) := by
  refine ⟨fun st ops => runOps_cum_mono ops st, ?_, ?_⟩
  · intro st env h1 h2 h3
    rw [cleanup_trace_spec]
    simp [h1, h2, h3]
  · intro st env up down hcond
    rw [cleanup_trace_spec]
    have : ¬(st.hasProcess = true ∧ st.status = MStatus.connected ∧ env.binaryOk = true) := by
      intro hc
      exact hcond ⟨hc.1, hc.2.1⟩
    rw [if_neg this]
    split <;> simp

def stC4 : ManagerState :=
  { hasProcess := true, status := MStatus.connected, error := none
  , activeNetworkService := some "Wi-Fi"
  , cumulativeStats := { uplink := 3, downlink := 4 } }

def envC4 : CleanupEnv :=
  { binaryOk := true, sessionUp := 5, sessionDown := 6, writeOk := true }

theorem c4_witness :
    (cleanup stC4 envC4).2 =
      [Effect.foldStats 5 6,
       Effect.persistStats { uplink := 8, downlink := 10 } true,
       Effect.killProc, Effect.unsetProxy, Effect.deleteConfig] ∧
    Effect.foldStats 0 0 ∉ (cleanup (mkManager StatsFileEnv.missing) envC4).2 :=
  ⟨c4_cumulative_monotone_fold_once.2.1 stC4 envC4 rfl rfl rfl,
   c4_cumulative_monotone_fold_once.2.2 (mkManager StatsFileEnv.missing) envC4 0 0
     (by decide)⟩

def cenv0 : CleanupEnv :=
  { binaryOk := true, sessionUp := 0, sessionDown := 0, writeOk := true }

def m0 : ManagerState := mkManager StatsFileEnv.missing

def envNoBinary : ConnectEnv :=
  { uri := "vless://uuid@example.com:443#x", preCleanup := cenv0
  , configWriteOk := true, binaryOk := false, events := [], failCleanup := cenv0
  , serviceName := "Wi-Fi" }

theorem c2_witness :
    (connect m0 envNoBinary).ok = false ∧
    ((connect m0 envNoBinary).state.status = MStatus.error ∧
     (connect m0 envNoBinary).error ≠ none ∧
     (connect m0 envNoBinary).state.error = (connect m0 envNoBinary).error ∧
     (connect m0 envNoBinary).state.hasProcess = false ∧
     Effect.unsetProxy ∈ (connect m0 envNoBinary).trace ∧
     Effect.deleteConfig ∈ (connect m0 envNoBinary).trace ∧
     (Effect.spawnProc ∈ (connect m0 envNoBinary).trace →
       Effect.killProc ∈ (connect m0 envNoBinary).trace)) :=
  ⟨by decide, c2_connect_failure_cleanup m0 envNoBinary (by decide)⟩

theorem strAppend_empty (s : String) : s ++ "" = s := by
  apply String.ext
  simp

theorem strAppend_assoc (a b c : String) : a ++ b ++ c = a ++ (b ++ c) := by
  apply String.ext
  simp

theorem runWait_stdout (s : String) (rest : List XEv) (buf : String) :
    runWait (XEv.stdout s :: rest) buf =
      if hasMarker s then WaitOutcome.ready else runWait rest (buf ++ s) := rfl

theorem runWait_stderr (s : String) (rest : List XEv) (buf : String) :
    runWait (XEv.stderr s :: rest) buf = runWait rest (buf ++ s) := rfl

theorem runWait_exit (c : Int) (rest : List XEv) (buf : String) :
    runWait (XEv.exit c :: rest) buf =
      if c ≠ 0 then WaitOutcome.failed ("xray error: " ++ extractDiag buf)
      else runWait rest buf := rfl

theorem specTreatedReady_cons_settle (e : XEv) (t : List XEv)
    (h : isSettlingEv e = true) :
    specTreatedReady (e :: t) =
      (match e with | XEv.stdout _ => true | _ => false) := by
  unfold specTreatedReady
  rw [List.find?_cons_of_pos _ h]
  cases e <;> rfl

theorem specTreatedReady_cons_skip (e : XEv) (t : List XEv)
    (h : isSettlingEv e = false) :
    specTreatedReady (e :: t) = specTreatedReady t := by
  unfold specTreatedReady
  rw [List.find?_cons_of_neg _ (by simp [h])]

theorem runWait_ready_iff (evs : List XEv) :
    ∀ buf : String,
      (runWait evs buf = WaitOutcome.ready) ↔ specTreatedReady evs = true := by
  induction evs with
  | nil =>
    intro buf
    simp [runWait, specTreatedReady]
  | cons e t ih =>
    intro buf
    cases e with
    | stdout s =>
      by_cases hm : hasMarker s = true
      · rw [specTreatedReady_cons_settle _ _ (by simp [isSettlingEv, hm])]
        simp [runWait_stdout, hm]
      · have hm' : hasMarker s = false := by
          simpa using hm
        rw [specTreatedReady_cons_skip _ _ (by simp [isSettlingEv, hm'])]
        rw [runWait_stdout, if_neg (by simp [hm'])]
        exact ih (buf ++ s)
    | stderr s =>
      rw [specTreatedReady_cons_skip _ _ (by simp [isSettlingEv])]
      rw [runWait_stderr]
      exact ih (buf ++ s)
    | exit c =>
      by_cases hc : c = 0
      · subst hc
        rw [specTreatedReady_cons_skip _ _ (by simp [isSettlingEv])]
        rw [runWait_exit, if_neg (by simp)]
        exact ih buf
      · rw [specTreatedReady_cons_settle _ _ (by simp [isSettlingEv, hc])]
        rw [runWait_exit, if_pos hc]
        simp
    | spawnErr m =>
      rw [specTreatedReady_cons_settle _ _ (by simp [isSettlingEv])]
      show WaitOutcome.failed ("xray spawn error: " ++ m) = WaitOutcome.ready ↔
        false = true
      simp

theorem runWait_fail_diag (pre : List XEv) :
    ∀ (c : Int) (post : List XEv) (buf : String),
      (∀ e ∈ pre, isSettlingEv e = false) → c ≠ 0 →
      runWait (pre ++ XEv.exit c :: post) buf =
        WaitOutcome.failed ("xray error: " ++ extractDiag (buf ++ outputOf pre)) := by
  induction pre with
  | nil =>
    intro c post buf _ hc
    rw [List.nil_append, runWait_exit, if_pos hc]
    rw [show outputOf [] = "" from rfl, strAppend_empty]
  | cons e t ih =>
    intro c post buf hall hc
    have he : isSettlingEv e = false := hall e (List.mem_cons_self _ _)
    have hall2 : ∀ x ∈ t, isSettlingEv x = false :=
      fun x hx => hall x (List.mem_cons_of_mem _ hx)
    cases e with
    | stdout s =>
      have hm : hasMarker s = false := by
        simpa [isSettlingEv] using he
      rw [List.cons_append, runWait_stdout, if_neg (by simp [hm])]
      rw [show outputOf (XEv.stdout s :: t) = s ++ outputOf t from rfl]
      rw [← strAppend_assoc]
      exact ih c post (buf ++ s) hall2 hc
    | stderr s =>
      rw [List.cons_append, runWait_stderr]
      rw [show outputOf (XEv.stderr s :: t) = s ++ outputOf t from rfl]
      rw [← strAppend_assoc]
      exact ih c post (buf ++ s) hall2 hc
    | exit c2 =>
      have hz : c2 = 0 := by
        by_contra hne
        simp [isSettlingEv, hne] at he
      subst hz
      rw [List.cons_append, runWait_exit, if_neg (by simp)]
      rw [show outputOf (XEv.exit 0 :: t) = outputOf t from rfl]
      exact ih c post buf hall2 hc
    | spawnErr m =>
      simp [isSettlingEv] at he

/-- Claim C8: the readiness wait treats the process as ready exactly when a
chunk with a started/listening marker appears on standard output, or the
wait budget elapses (the event list is exhausted) without the process
exiting non-zero or erroring — the first settling event decides; a
non-zero exit while still connecting fails with the message built from the
most specific diagnostic the code can extract from the captured output
(`Failed to start:` capture when present, a 200-character prefix
otherwise), and `connect` surfaces exactly that message. -/
theorem c8_readiness :
    (∀ (evs : List XEv) (buf : String),
      (runWait evs buf = WaitOutcome.ready) ↔ specTreatedReady evs = true) ∧
    (∀ (pre : List XEv) (c : Int) (post : List XEv) (buf : String),
      (∀ e ∈ pre, isSettlingEv e = false) → c ≠ 0 →
      runWait (pre ++ XEv.exit c :: post) buf =
        WaitOutcome.failed ("xray error: " ++ extractDiag (buf ++ outputOf pre))) ∧
    (∀ (st : ManagerState) (env : ConnectEnv) (msg : String),
      (generateConfig env.uri).isOk = true → env.configWriteOk = true →
      env.binaryOk = true → runWait env.events "" = WaitOutcome.failed msg →
      (connect st env).ok = false ∧ (connect st env).error = some msg) := by
  refine ⟨fun evs buf => runWait_ready_iff evs buf,
    fun pre c post buf h1 h2 => runWait_fail_diag pre c post buf h1 h2, ?_⟩
  intro st env msg hg hw hb hr
  unfold connect
  cases hgc : generateConfig env.uri with
  | error m =>
    rw [hgc] at hg
    simp [Except.isOk, Except.toBool] at hg
  | ok cfg =>
    rw [if_neg (by simp [hw]), if_neg (by simp [hb]), hr]
    exact ⟨rfl, rfl⟩

def envExit1 : ConnectEnv :=
  { uri := "vless://uuid@example.com:443#x", preCleanup := cenv0
  , configWriteOk := true, binaryOk := true, events := [XEv.exit 1]
  , failCleanup := cenv0, serviceName := "Wi-Fi" }

theorem c8_witness :
    (runWait ([] : List XEv) "" = WaitOutcome.ready ↔
      specTreatedReady ([] : List XEv) = true) ∧
    runWait [XEv.exit 1] "" =
      WaitOutcome.failed ("xray error: " ++ extractDiag ("" ++ outputOf [])) ∧
    ((connect m0 envExit1).ok = false ∧
      (connect m0 envExit1).error = some ("xray error: " ++ extractDiag "")) :=
  ⟨c8_readiness.1 [] "",
   c8_readiness.2.1 [] 1 [] "" (by simp) (by decide),
   c8_readiness.2.2 m0 envExit1 ("xray error: " ++ extractDiag "") (by decide)
     rfl rfl (by decide)⟩

def envTrojan : ConnectEnv :=
  { uri := "trojan://uuid@example.com:443#x", preCleanup := cenv0
  , configWriteOk := true, binaryOk := true, events := [], failCleanup := cenv0
  , serviceName := "Wi-Fi" }

/-- Claim C1 counterexample: `trojan://uuid@example.com:443#x` has a scheme
other than the recognized one, yet `parseVlessUri` succeeds (the code
never validates the scheme), and `connect` with that URI spawns the engine
and mutates the host proxy settings. -/
theorem c1_counterexample :
    (jsURL "trojan://uuid@example.com:443#x").map JsURL.scheme = some "trojan" ∧
    (parseVlessUri "trojan://uuid@example.com:443#x").isOk = true ∧
    Effect.spawnProc ∈ (connect m0 envTrojan).trace ∧
    Effect.setProxy ∈ (connect m0 envTrojan).trace := by decide

/-- Claim C1 (amended): the parser ignores the scheme entirely — parsing a
URL record with any scheme substituted gives the identical result — and
`connect` on any URI whose parse succeeds (recognized scheme or not)
proceeds to spawn the proxy engine and mutate the host proxy settings. -/
theorem c1_scheme_ignored :
    (∀ (u : JsURL) (s : String),
      parseFromURL { u with scheme := s } = parseFromURL u) ∧
    (∀ (st : ManagerState) (env : ConnectEnv),
      st.hasProcess = false → (parseVlessUri env.uri).isOk = true →
      env.configWriteOk = true → env.binaryOk = true →
      runWait env.events "" = WaitOutcome.ready →
      (connect st env).ok = true ∧
      Effect.spawnProc ∈ (connect st env).trace ∧
      Effect.setProxy ∈ (connect st env).trace) := by
  constructor
  · intro u s
    cases u
    rfl
  · intro st env hps hpar hw hb hr
    have hg : (generateConfig env.uri).isOk = true := by
      unfold generateConfig
      cases hp : parseVlessUri env.uri with
      | error m =>
        rw [hp] at hpar
        simp [Except.isOk, Except.toBool] at hpar
      | ok p => rfl
    have hpre2 : (connectPre st env).2 = [] := by
      unfold connectPre
      rw [if_neg (by simp [hps])]
    unfold connect
    cases hgc : generateConfig env.uri with
    | error m =>
      rw [hgc] at hg
      simp [Except.isOk, Except.toBool] at hg
    | ok cfg =>
      rw [if_neg (by simp [hw]), if_neg (by simp [hb]), hr]
      refine ⟨rfl, ?_, ?_⟩
      · show Effect.spawnProc ∈ (connectPre st env).2 ++
          [Effect.writeConfig, Effect.spawnProc, Effect.setProxy]
        rw [hpre2]
        simp
      · show Effect.setProxy ∈ (connectPre st env).2 ++
          [Effect.writeConfig, Effect.spawnProc, Effect.setProxy]
        rw [hpre2]
        simp

def uVless : JsURL :=
  { scheme := "vless", username := "uuid", hostname := "example.com"
  , port := "443", search := "", hash := "#x" }

def envVless : ConnectEnv :=
  { uri := "vless://uuid@example.com:443#x", preCleanup := cenv0
  , configWriteOk := true, binaryOk := true, events := [], failCleanup := cenv0
  , serviceName := "Wi-Fi" }

theorem c1_witness :
    parseFromURL { uVless with scheme := "foo" } = parseFromURL uVless ∧
    ((connect m0 envVless).ok = true ∧
     Effect.spawnProc ∈ (connect m0 envVless).trace ∧
     Effect.setProxy ∈ (connect m0 envVless).trace) :=
  ⟨c1_scheme_ignored.1 uVless "foo",
   c1_scheme_ignored.2 m0 envVless rfl (by decide) rfl rfl (by decide)⟩

/-- Claim C5 counterexample: for `vless://uuid@example.com#x` — a
recognized-scheme URI omitting the port — parsing succeeds and the
descriptor's port is `NaN` (`parseInt('')`), modelled `none`: the port is
neither defaulted to 443 nor does parsing fail. -/
theorem c5_counterexample :
    (parseVlessUri "vless://uuid@example.com#x").isOk = true ∧
    (parseVlessUri "vless://uuid@example.com#x").toOption.bind
      (fun p => p.outbound.vnext.head?.map VnextEntry.port) = some none := by
  decide

/-- Claim C5 (amended): a recognized-scheme URI that omits the port still
parses successfully, and the resulting descriptor carries a `NaN`
(absent) port — no 443 default exists and no error is raised. -/
theorem c5_port_nan (u : JsURL) (p : ParsedVless)
    (h : parseFromURL u = Except.ok p) (hp : u.port = "") :
    ∃ e, p.outbound.vnext = [e] ∧ e.port = none := by
  unfold parseFromURL at h
  cases hd : decodeURIComponentM (labelSource u) with
  | none =>
    rw [hd] at h
    simp at h
  | some label =>
    rw [hd] at h
    simp only [Except.ok.injEq] at h
    subst h
    refine ⟨_, rfl, ?_⟩
    show jsParseInt u.port = none
    rw [hp]
    decide

def u5 : JsURL :=
  { scheme := "vless", username := "uuid", hostname := "example.org"
  , port := "", search := "", hash := "#y" }

theorem c5_witness :
    ∃ (p : ParsedVless) (e : VnextEntry),
      parseFromURL u5 = Except.ok p ∧ p.outbound.vnext = [e] ∧ e.port = none := by
  cases hp : parseFromURL u5 with
  | error m =>
    have hok : (parseFromURL u5).isOk = true := by decide
    rw [hp] at hok
    simp [Except.isOk, Except.toBool] at hok
  | ok p =>
    obtain ⟨e, h1, h2⟩ := c5_port_nan u5 p hp rfl
    exact ⟨p, e, rfl, h1, h2⟩

/-- Claim C6 counterexample: for a stealth-mode URI with all stealth
parameters missing, the fingerprint field is populated with `"chrome"`,
not the empty string the claim asserts for every missing field. -/
theorem c6_counterexample :
    ((parseVlessUri "vless://uuid@example.com:443?security=reality#x").toOption.bind
      (fun p => p.outbound.streamSettings.realitySettings)).map
      RealitySettingsV.fingerprint = some "chrome" ∧
    ("chrome" : String) ≠ "" := by
  decide

/-- Claim C6 (amended): parsing succeeds independently of the stealth
parameters (it can only fail on the label decode), and in stealth mode the
missing server name, public key, short id and spider path each default to
the empty string, while a missing fingerprint defaults to `"chrome"`. -/
theorem c6_reality_defaults :
    (∀ u : JsURL,
      (parseFromURL u).isOk = (decodeURIComponentM (labelSource u)).isSome) ∧
    (∀ (u : JsURL) (p : ParsedVless), parseFromURL u = Except.ok p →
      getParam (parseQuery u.search) "security" = some "reality" →
      ∃ rs, p.outbound.streamSettings.security = some "reality" ∧
        p.outbound.streamSettings.realitySettings = some rs ∧
        (getParam (parseQuery u.search) "sni" = none → rs.serverName = "") ∧
        (getParam (parseQuery u.search) "pbk" = none → rs.publicKey = "") ∧
        (getParam (parseQuery u.search) "sid" = none → rs.shortId = "") ∧
        (getParam (parseQuery u.search) "spx" = none → rs.spiderX = "") ∧
        (getParam (parseQuery u.search) "fp" = none → rs.fingerprint = "chrome")) := by
  constructor
  · intro u
    unfold parseFromURL
    cases hd : decodeURIComponentM (labelSource u) with
    | none => simp [Except.isOk, Except.toBool]
    | some label => simp [Except.isOk, Except.toBool]
  · intro u p h hsec
    unfold parseFromURL at h
    cases hd : decodeURIComponentM (labelSource u) with
    | none =>
      rw [hd] at h
      simp at h
    | some label =>
      rw [hd] at h
      simp only [Except.ok.injEq] at h
      subst h
      rw [hsec]
      rw [if_neg (by decide), if_pos rfl]
      refine ⟨_, rfl, rfl, ?_, ?_, ?_, ?_, ?_⟩ <;>
        · intro hnone
          rw [hnone]
          rfl

/-- Claim C7 counterexample: for a descriptor URI with no query at all
(so neither flow nor encryption is explicitly set), the built user entry
still contains an encryption field, populated `"none"` — the encryption
method is emitted even when not explicitly set (flow, by contrast, is
omitted). -/
theorem c7_counterexample :
    ((parseVlessUri "vless://uuid@example.com:443#x").toOption.bind
      (fun p => p.outbound.vnext.head?.bind (fun e => e.users.head?))).map
      (fun usr => (usr.encryption, usr.flow)) = some ("none", none) ∧
    (jsURL "vless://uuid@example.com:443#x").map JsURL.search = some "" := by
  decide

/-- Claim C7 (amended): building the config never throws for a URI that
parses (`generateConfig` succeeds exactly when `parseVlessUri` does); the
user entry's flow is included only when explicitly set and non-empty
(never as an empty string), while the encryption method is always
included, defaulting to `"none"` when absent (and never the empty
string). -/
theorem c7_build_total_flow_encryption :
    (∀ uri : String, (generateConfig uri).isOk = (parseVlessUri uri).isOk) ∧
    (∀ (u : JsURL) (p : ParsedVless) (usr : VlessUser),
      parseFromURL u = Except.ok p →
      p.outbound.vnext.head?.bind (fun e => e.users.head?) = some usr →
      usr.flow ≠ some "" ∧
      (getParam (parseQuery u.search) "flow" = none → usr.flow = none) ∧
      usr.encryption ≠ "" ∧
      (getParam (parseQuery u.search) "encryption" = none →
        usr.encryption = "none")) := by
  constructor
  · intro uri
    unfold generateConfig
    cases hp : parseVlessUri uri with
    | error m => simp [Except.map, Except.isOk, Except.toBool]
    | ok p => simp [Except.map, Except.isOk, Except.toBool]
  · intro u p usr h husr
    unfold parseFromURL at h
    cases hd : decodeURIComponentM (labelSource u) with
    | none =>
      rw [hd] at h
      simp at h
    | some label =>
      rw [hd] at h
      simp only [Except.ok.injEq] at h
      subst h
      simp only [List.head?, Option.bind] at husr
      simp only [Option.some.injEq] at husr
      subst husr
      refine ⟨?_, ?_, ?_, ?_⟩
      · show (match getParam (parseQuery u.search) "flow" with
          | some f => if f = "" then none else some f
          | none => none) ≠ some ""
        cases hf : getParam (parseQuery u.search) "flow" with
        | none => simp
        | some f =>
          by_cases hfe : f = ""
          · simp [hfe]
          · simp [hfe]
      · intro hflow
        show (match getParam (parseQuery u.search) "flow" with
          | some f => if f = "" then none else some f
          | none => none) = none
        rw [hflow]
      · show jsOr (getParam (parseQuery u.search) "encryption") "none" ≠ ""
        unfold jsOr
        cases he : getParam (parseQuery u.search) "encryption" with
        | none => decide
        | some s =>
          by_cases hse : s = ""
          · simp [hse]
          · simp [hse]
      · intro henc
        show jsOr (getParam (parseQuery u.search) "encryption") "none" = "none"
        rw [henc]
        rfl

def u6 : JsURL :=
  { scheme := "vless", username := "uuid", hostname := "example.com"
  , port := "443", search := "security=reality", hash := "#x" }

theorem c6_witness :
    ((parseFromURL uVless).isOk = (decodeURIComponentM (labelSource uVless)).isSome) ∧
    (∃ (p : ParsedVless) (rs : RealitySettingsV),
      parseFromURL u6 = Except.ok p ∧
      p.outbound.streamSettings.security = some "reality" ∧
      p.outbound.streamSettings.realitySettings = some rs ∧
      rs.serverName = "" ∧ rs.publicKey = "" ∧ rs.fingerprint = "chrome") := by
  refine ⟨c6_reality_defaults.1 uVless, ?_⟩
  cases hp : parseFromURL u6 with
  | error m =>
    have hok : (parseFromURL u6).isOk = true := by decide
    rw [hp] at hok
    simp [Except.isOk, Except.toBool] at hok
  | ok p =>
    obtain ⟨rs, h1, h2, h3, h4, h5, h6, h7⟩ :=
      c6_reality_defaults.2 u6 p hp (by decide)
    exact ⟨p, rs, rfl, h1, h2, h3 (by decide), h4 (by decide), h7 (by decide)⟩

def p7 : ParsedVless :=
  { label := "x"
  , outbound :=
    { tag := "proxy", protocol := "vless"
    , vnext := [{ address := "example.com", port := some 443
                , users := [{ id := "uuid", encryption := "none", flow := none }] }]
    , streamSettings :=
      { network := "tcp", security := none, tlsSettings := none
      , realitySettings := none, wsSettings := none, grpcSettings := none
      , tcpSettings := none } } }

def usr7 : VlessUser := { id := "uuid", encryption := "none", flow := none }

theorem c7_witness :
    ((generateConfig "vless://uuid@example.com:443#x").isOk =
      (parseVlessUri "vless://uuid@example.com:443#x").isOk) ∧
    (usr7.flow ≠ some "" ∧
     (getParam (parseQuery uVless.search) "flow" = none → usr7.flow = none) ∧
     usr7.encryption ≠ "" ∧
     (getParam (parseQuery uVless.search) "encryption" = none →
       usr7.encryption = "none")) :=
  ⟨c7_build_total_flow_encryption.1 "vless://uuid@example.com:443#x",
   c7_build_total_flow_encryption.2 uVless p7 usr7 (by decide) (by decide)⟩

/-- Claim C9 counterexample: on a freshly constructed (disconnected)
manager, `getTrafficStats` returns only the cumulative pair — the session
counters are absent (`none`), so the record does not contain all four
counters in every state. -/
theorem c9_counterexample :
    getTrafficStats m0 { binaryOk := true, sessionUp := 7, sessionDown := 9 } =
      { uplink := 0, downlink := 0
      , sessionUplink := none, sessionDownlink := none } := by
  decide

/-- Claim C9 (amended): while connected with a live process and a
locatable engine binary, `stats()` carries all four counters — the session
counters read live from the process and the `uplink`/`downlink` fields
being cumulative plus session; in every other situation it returns only
the cumulative pair, with no session fields at all. -/
theorem c9_stats_shape (st : ManagerState) (env : StatsEnv) :
    (st.status = MStatus.connected → st.hasProcess = true → env.binaryOk = true →
      getTrafficStats st env =
        { uplink := st.cumulativeStats.uplink + env.sessionUp
        , downlink := st.cumulativeStats.downlink + env.sessionDown
        , sessionUplink := some env.sessionUp
        , sessionDownlink := some env.sessionDown }) ∧
    (st.status ≠ MStatus.connected ∨ st.hasProcess = false ∨ env.binaryOk = false →
      getTrafficStats st env =
        { uplink := st.cumulativeStats.uplink
        , downlink := st.cumulativeStats.downlink
        , sessionUplink := none, sessionDownlink := none }) := by
  constructor
  · intro h1 h2 h3
    unfold getTrafficStats
    rw [if_neg (by simp [h1, h2]), if_pos h3]
  · intro h
    unfold getTrafficStats
    rcases h with h | h | h
    · rw [if_pos (Or.inl h)]
    · rw [if_pos (Or.inr h)]
    · by_cases hc : st.status ≠ MStatus.connected ∨ st.hasProcess = false
      · rw [if_pos hc]
      · rw [if_neg hc, if_neg (by simp [h])]

def stC9 : ManagerState :=
  { hasProcess := true, status := MStatus.connected, error := none
  , activeNetworkService := none
  , cumulativeStats := { uplink := 3, downlink := 4 } }

theorem c9_witness :
    getTrafficStats stC9 { binaryOk := true, sessionUp := 5, sessionDown := 6 } =
      { uplink := 8, downlink := 10
      , sessionUplink := some 5, sessionDownlink := some 6 } ∧
    getTrafficStats m0 { binaryOk := true, sessionUp := 5, sessionDown := 6 } =
      { uplink := 0, downlink := 0
      , sessionUplink := none, sessionDownlink := none } :=
  ⟨(c9_stats_shape stC9 _).1 rfl rfl rfl,
   (c9_stats_shape m0 _).2 (Or.inl (by decide))⟩

/-- Claim C10: a missing, unreadable or corrupt durable stats record makes
construction fall back to zero cumulative totals without throwing (the
constructor is total and always yields a disconnected, error-free
manager), and a failed write of the record after a fold is swallowed: the
manager state after `cleanup` is identical whether the write succeeds or
fails, and `disconnect` still reports success. -/
theorem c10_stats_persistence_resilience :
    (loadStats StatsFileEnv.missing = { uplink := 0, downlink := 0 } ∧
     loadStats StatsFileEnv.readError = { uplink := 0, downlink := 0 } ∧
     loadStats StatsFileEnv.corrupt = { uplink := 0, downlink := 0 }) ∧
    (∀ e : StatsFileEnv,
      (mkManager e).status = MStatus.disconnected ∧
      (mkManager e).hasProcess = false ∧
      (mkManager e).error = none) ∧
    (∀ e : StatsFileEnv, (readStatsAttempt e).isOk = false →
      (mkManager e).cumulativeStats = { uplink := 0, downlink := 0 }) ∧
    (∀ (st : ManagerState) (env : CleanupEnv) (b1 b2 : Bool),
      (cleanup st { env with writeOk := b1 }).1 =
        (cleanup st { env with writeOk := b2 }).1 ∧
      (disconnect st { env with writeOk := b1 }).ok = true) := by
  refine ⟨⟨rfl, rfl, rfl⟩, fun e => ⟨rfl, rfl, rfl⟩, ?_, ?_⟩
  · intro e he
    cases e with
    | missing => rfl
    | readError => rfl
    | corrupt => rfl
    | stored s =>
      exact absurd he (by simp [readStatsAttempt, Except.isOk, Except.toBool])
  · intro st env b1 b2
    refine ⟨?_, rfl⟩
    have h1 := cleanup_state_spec st { env with writeOk := b1 }
    have h2 := cleanup_state_spec st { env with writeOk := b2 }
    apply ManagerState.ext
    · rw [h1.1, h2.1]
    · rw [h1.2.1, h2.2.1]
    · rw [h1.2.2.1, h2.2.2.1]
    · rw [h1.2.2.2.1, h2.2.2.2.1]
    · rw [h1.2.2.2.2, h2.2.2.2.2]

theorem c10_witness :
    (mkManager StatsFileEnv.corrupt).cumulativeStats =
      { uplink := 0, downlink := 0 } ∧
    (cleanup stC4 { cenv0 with writeOk := false }).1 =
      (cleanup stC4 { cenv0 with writeOk := true }).1 :=
  ⟨c10_stats_persistence_resilience.2.2.1 StatsFileEnv.corrupt (by decide),
   (c10_stats_persistence_resilience.2.2.2 stC4 cenv0 false true).1⟩
